import Mathlib

/-
  Verification of the message-intent router and session/catalog resolution
  logic of `src/whatsapp_bot.py` (a Flask/Twilio WhatsApp webhook).

  Shallow embedding conventions:
  * Form fields (`request.form.get`) are `Option String`; Python truthiness
    of such a value is `truthy` below (None and "" are falsy).
  * The global dict `SESSION_STORE` is threaded explicitly as an association
    list `Store`; `storeGet`/`storeSet` model Python dict read and write
    (write replaces in place, new keys are appended, matching dict order).
  * The single outbound HTTP call (`requests.post` + `raise_for_status` +
    `.json()`) is abstracted by a `BackendOutcome` parameter: `.reqError`
    is any `RequestException` (network failure or non-2xx status raised by
    `raise_for_status`), `.ok data` is a parsed JSON body with the
    `data.get("reply", "")` and `data.get("mentioned_products", [])`
    defaults already applied.
  * The catalog file read by `get_product_details` is a parameter
    `Option (List ProductRec)`: `none` models an unreadable or malformed
    `company-information.json` (the `except` path of its `try`), `some ps`
    the parsed `data.get("products", [])` list.
  * JSON values appearing as detail nodes are the inductive `Detail`;
    Python `str()` of such a value is `pyStr` (string quoting inside
    containers follows `repr`; character escaping inside `repr` of a
    string, and float leaves, are not modelled — claims only evaluate it
    on strings and shape-level cases). JSON numbers are modelled as `Int`.
  * Python `str.upper`/`str.lower`/`str.strip` are the ASCII-faithful
    `pyUpper`/`pyLower`/`pyStrip` below (the claims only use ASCII data).
  * `float(s)` is `pyFloat`, an exact-rational reading of a plain decimal
    string (optional sign, digits, optional single point); exponent,
    `inf`/`nan` forms and IEEE rounding are not modelled. A string it
    rejects models the uncaught `ValueError` of `float()`.
  * An uncaught Python exception in the handler makes the whole request
    fail with no TwiML reply; the handler result is therefore
    `Except PyError (List String)`, the `.ok` list being the texts of the
    queued `resp.message(...)` calls in order.
-/

namespace WhatsappBot

/-- Python truthiness of an optional form-field string: `None` and the
empty string are falsy, any other string is truthy. -/
def truthy : Option String → Bool
  | some s => decide (s ≠ "")
  | none => false

/-- The whitespace characters stripped by Python `str.strip()` (ASCII
range; exotic Unicode spaces are not modelled). -/
def pyIsSpace (c : Char) : Bool :=
  c = ' ' || c = '\t' || c = '\n' || c = '\r' || c = '\x0b' || c = '\x0c'

/-- Python `s.strip()`. -/
def pyStrip (s : String) : String :=
  String.mk (((s.toList.dropWhile pyIsSpace).reverse.dropWhile pyIsSpace).reverse)

/-- Python `s.upper()` (ASCII case mapping; the claims only use ASCII). -/
def pyUpper (s : String) : String := String.mk (s.toList.map Char.toUpper)

/-- Python `s.lower()` (ASCII case mapping; the claims only use ASCII). -/
def pyLower (s : String) : String := String.mk (s.toList.map Char.toLower)

/-- Python `s.startswith(p)`. -/
def pyStartswith (s p : String) : Bool := List.isPrefixOf p.toList s.toList

/-- A Python string-valued dict, as an insertion-ordered association list;
`dictGet` is `d.get(k)`. -/
abbrev PyDict := List (String × String)

def dictGet : PyDict → String → Option String
  | [], _ => none
  | (k, v) :: kvs, key => if k == key then some v else dictGet kvs key

/-- The per-user session record stored in `SESSION_STORE`. Only the
`"first_name"` field is ever read (with default `""`); nothing in this
draft ever writes a field into it. -/
abbrev SessionData := PyDict

/-- The global `SESSION_STORE` dict: phone number → session data. -/
abbrev Store := List (String × SessionData)

def storeGet : Store → String → Option SessionData
  | [], _ => none
  | (k, v) :: kvs, key => if k == key then some v else storeGet kvs key

/-- `SESSION_STORE[key] = v`: replace in place if the key exists, else
append (Python dict update order). -/
def storeSet : Store → String → SessionData → Store
  | [], key, v => [(key, v)]
  | (k, w) :: rest, key, v =>
    if k == key then (key, v) :: rest else (k, w) :: storeSet rest key v

/-- The four form fields the webhook reads from the Twilio request. -/
structure Form where
  From : Option String
  Body : Option String
  Latitude : Option String
  Longitude : Option String

/-- JSON-like detail node (`detailed_description` values). Numbers are
modelled as `Int`; float leaves are not modelled. -/
inductive Detail where
  | str : String → Detail
  | num : Int → Detail
  | bool : Bool → Detail
  | null : Detail
  | list : List Detail → Detail
  | dict : List (String × Detail) → Detail

mutual
/-- Python `repr` of a JSON-like value (string escaping not modelled:
claims never evaluate it on strings containing quotes). -/
def pyRepr : Detail → String
  | .str s => "'" ++ s ++ "'"
  | .num n => toString n
  | .bool b => if b then "True" else "False"
  | .null => "None"
  | .list xs => "[" ++ pyReprList xs ++ "]"
  | .dict kvs => "\x7b" ++ pyReprKVs kvs ++ "\x7d"

def pyReprList : List Detail → String
  | [] => ""
  | [x] => pyRepr x
  | x :: xs => pyRepr x ++ ", " ++ pyReprList xs

def pyReprKVs : List (String × Detail) → String
  | [] => ""
  | [(k, v)] => "'" ++ k ++ "': " ++ pyRepr v
  | (k, v) :: kvs => "'" ++ k ++ "': " ++ pyRepr v ++ ", " ++ pyReprKVs kvs
end

/-- Python `str()` of a JSON-like value, as used by the f-strings in
`parse_detailed_description`: a string renders verbatim, anything else
as its `repr`. -/
def pyStr : Detail → String
  | .str s => s
  | d => pyRepr d

/-- One `key: value` block of the dict branch of
`parse_detailed_description` (`f"*{key}:*\n{specs}\n"` /
`f"*{key}:* {value}\n"`). -/
def renderKV (k : String) (v : Detail) : String :=
  match v with
  | .dict sub =>
    "*" ++ k ++ ":*\n" ++
      String.intercalate "\n"
        (sub.map fun kv => "  - " ++ kv.1 ++ ": " ++ pyStr kv.2) ++ "\n"
  | .list items =>
    "*" ++ k ++ ":*\n" ++
      String.intercalate "\n" (items.map fun i => "  - " ++ pyStr i) ++ "\n"
  | _ => "*" ++ k ++ ":* " ++ pyStr v ++ "\n"

/-- `parse_detailed_description` (lines 182-203 of the source): dict →
concatenated key blocks; list → `  - item` lines; string → verbatim;
anything else → the fixed no-detail string. -/
def parse_detailed_description : Detail → String
  | .dict kvs => String.join (kvs.map fun kv => renderKV kv.1 kv.2)
  | .list items =>
    String.intercalate "\n" (items.map fun i => "  - " ++ pyStr i)
  | .str s => s
  | _ => "No detailed description available."

/-- One catalog entry as parsed from `company-information.json`. The
`Option` fields model possibly-missing dict keys: `p["title"]` and
`p["description"]` raise `KeyError` when `none`,
`p.get('detailed_description', {})` and `p.get('product_url', 'No URL')`
apply defaults. -/
structure ProductRec where
  title? : Option String
  description? : Option String
  detailed_description? : Option Detail
  product_url? : Option String

/-- Exceptions the handler can leak (uncaught): `KeyError` from a missing
mandatory dict key, `ValueError` from `float()` on a bad string. -/
inductive PyError where
  | keyError : PyError
  | valueError : PyError
deriving DecidableEq

/-- The generator `next((p for p in products if p["title"].lower() ==
product_title.lower()), None)`: scans in order; a record without a
`"title"` key raises `KeyError` (caught by the enclosing `except` of
`get_product_details`); a match returns the stored title and the record. -/
def findProduct : List ProductRec → String → Except PyError (Option (String × ProductRec))
  | [], _ => .ok none
  | p :: ps, key =>
    match p.title? with
    | none => .error .keyError
    | some t =>
      if pyLower t = pyLower key then .ok (some (t, p)) else findProduct ps key

/-- `get_product_details` (lines 152-180): reload the catalog, match the
title case-insensitively, format the detail reply; the surrounding
`try/except Exception` turns any failure (unreadable file, missing
mandatory key) into the fixed error-loading string. -/
def get_product_details (catalog : Option (List ProductRec)) (product_title : String) : String :=
  match catalog with
  | none => "Error loading product details. Please try again later."
  | some ps =>
    match findProduct ps product_title with
    | .error _ => "Error loading product details. Please try again later."
    | .ok none =>
      "Sorry, I couldn't find details for the product '" ++ product_title ++ "'."
    | .ok (some (t, p)) =>
      match p.description? with
      | none => "Error loading product details. Please try again later."
      | some desc =>
        let details_str := parse_detailed_description (p.detailed_description?.getD (.dict []))
        "*" ++ t ++ "*\n" ++ desc ++ "\n\n" ++ details_str ++
          "\nView Product: " ++ p.product_url?.getD "No URL"

/-- One element of the backend reply's `mentioned_products` list;
`Option` fields model possibly-missing dict keys (`product["title"]` /
`product["description"]` raise `KeyError` when `none`). -/
structure ProductJson where
  title? : Option String
  description? : Option String

/-- Parsed backend JSON body, with the `data.get("reply", "")` and
`data.get("mentioned_products", [])` defaults already applied. -/
structure BackendData where
  reply : String
  mentioned_products : List ProductJson

/-- Outcome of `requests.post` + `raise_for_status` + `.json()`:
`reqError` is any `RequestException` (network failure or non-2xx). -/
inductive BackendOutcome where
  | reqError : BackendOutcome
  | ok : BackendData → BackendOutcome

/-- The JSON payload handed to `requests.post`. The location pair holds
the exact rational values of `float(latitude)` / `float(longitude)`. -/
structure Payload where
  session_id : String
  message : String
  first_name : String
  location : Option (Rat × Rat)

/-- Result of one webhook invocation: the reply texts queued on the
Twilio `MessagingResponse` (or the uncaught exception), the resulting
`SESSION_STORE`, and the payload passed to `requests.post` (`none` when
no backend call was made). -/
structure HandlerOut where
  result : Except PyError (List String)
  store : Store
  payload : Option Payload

def isDigits (cs : List Char) : Bool := cs.all Char.isDigit

def digitsVal (cs : List Char) : Nat :=
  cs.foldl (fun a c => a * 10 + (c.toNat - 48)) 0

/-- Split a character list at the first `'.'`, if any. -/
def splitDot : List Char → (List Char × Option (List Char))
  | [] => ([], none)
  | c :: rest =>
    if c = '.' then ([], some rest)
    else
      let (a, b) := splitDot rest
      (c :: a, b)

/-- `float(s)` on plain decimal strings, read exactly as a rational:
optional surrounding whitespace, optional sign, digits with at most one
decimal point and at least one digit. `none` models the uncaught
`ValueError`. Exponent and `inf`/`nan` forms are not modelled. -/
def pyFloat (s : String) : Option Rat :=
  let cs := (pyStrip s).toList
  let sgn : Int := match cs with
    | '-' :: _ => -1
    | _ => 1
  let cs := match cs with
    | '-' :: rest => rest
    | '+' :: rest => rest
    | _ => cs
  match splitDot cs with
  | (ip, none) =>
    if !ip.isEmpty && isDigits ip then some ((sgn * (digitsVal ip : Int) : Int) : Rat)
    else none
  | (ip, some fp) =>
    if (!ip.isEmpty || !fp.isEmpty) && isDigits ip && isDigits fp then
      some ((sgn : Rat) * ((digitsVal ip : Rat) + (digitsVal fp : Rat) / ((10 : Rat) ^ fp.length)))
    else none

/-- `message_body.split(" ", 1)`: split at the first space only; a string
with no space yields a one-element list. -/
def splitOnceAux : List Char → Option (List Char × List Char)
  | [] => none
  | c :: cs =>
    if c = ' ' then some ([], cs)
    else
      match splitOnceAux cs with
      | none => none
      | some (a, b) => some (c :: a, b)

def pySplitOnce (s : String) : List String :=
  match splitOnceAux s.toList with
  | none => [s]
  | some (a, b) => [String.mk a, String.mk b]

/-- `session_id = from_number if from_number else "default_session"`. -/
def sessionIdOf (form : Form) : String :=
  if truthy form.From then form.From.getD "" else "default_session"

/-- `session_data = SESSION_STORE.get(session_id, {})`. -/
def sessionDataOf (store : Store) (form : Form) : SessionData :=
  (storeGet store (sessionIdOf form)).getD []

/-- `first_name = session_data.get("first_name", "")`. -/
def firstNameOf (store : Store) (form : Form) : String :=
  (dictGet (sessionDataOf store form) "first_name").getD ""

/-- The fixed connectivity-failure reply of the `except RequestException`
branches (lines 91 and 148). -/
def connectivityMsg : String :=
  "Sorry, I'm having trouble connecting to the server. Please try again later."

/-- The corrective prompt for a detail command without a second part
(line 112). -/
def malformedDetailMsg : String :=
  "Please specify which product details you want. Example: DETAILS Tractor"

/-- The greeting for an event with neither location nor text (line 97). -/
def emptyEventMsg : String := "Hello! Please send your query or location."

/-- The per-product message of the mentioned-products loop
(`f"*{title}*\n{desc}\nReply with: DETAILS {title} to see more."`). -/
def productMsg (t d : String) : String :=
  "*" ++ t ++ "*\n" ++ d ++ "\nReply with: DETAILS " ++ t ++ " to see more."

/-- The `for product in mentioned_products` loop: each element must have
`"title"` and `"description"` keys, else `KeyError` escapes (it is not a
`RequestException`, so nothing catches it and no reply is produced). -/
def composeProductMsgs : List ProductJson → Except PyError (List String)
  | [] => .ok []
  | p :: ps =>
    match p.title?, p.description? with
    | some t, some d =>
      match composeProductMsgs ps with
      | .ok rest => .ok (productMsg t d :: rest)
      | .error e => .error e
    | _, _ => .error .keyError

/-- The shared post-to-backend block (lines 62-91 and 124-148): on
`RequestException` reply with the fixed connectivity message and leave
the store untouched; on success write `SESSION_STORE[session_id] =
session_data` (the unchanged data read at the start of the request),
queue the `reply` text, then one message per mentioned product. -/
def postAndCompose (store : Store) (sid : String) (session_data : SessionData)
    (payload : Payload) (backend : BackendOutcome) : HandlerOut :=
  match backend with
  | .reqError => ⟨.ok [connectivityMsg], store, some payload⟩
  | .ok data =>
    match composeProductMsgs data.mentioned_products with
    | .ok pmsgs => ⟨.ok (data.reply :: pmsgs), storeSet store sid session_data, some payload⟩
    | .error e => ⟨.error e, storeSet store sid session_data, some payload⟩

/-- The text branch (lines 100-148): a body whose stripped uppercase
starts with `"DETAILS"` goes to the catalog path (a body containing a
space looks up everything after the first space, trimmed; otherwise the
corrective prompt); any other body is forwarded to the backend. The
`try/except Exception` around the catalog path is unreachable in this
model because `get_product_details` catches all its own exceptions. -/
def detailsOrForward (store : Store) (sid : String) (session_data : SessionData)
    (first_name : String) (body : String) (backend : BackendOutcome)
    (catalog : Option (List ProductRec)) : HandlerOut :=
  if pyStartswith (pyUpper (pyStrip body)) "DETAILS" then
    if (pySplitOnce body).length == 2 then
      ⟨.ok [get_product_details catalog (pyStrip ((pySplitOnce body).getD 1 ""))], store, none⟩
    else
      ⟨.ok [malformedDetailMsg], store, none⟩
  else
    postAndCompose store sid session_data ⟨sid, body, first_name, none⟩ backend

/-- `whatsapp_webhook` (lines 31-150): location data (both fields truthy)
takes priority and posts the fixed location message with the floats of
both fields (a malformed field raises `ValueError` before any call); an
absent or empty body yields the greeting; otherwise the text branch. -/
def whatsapp_webhook (store : Store) (form : Form) (backend : BackendOutcome)
    (catalog : Option (List ProductRec)) : HandlerOut :=
  if truthy form.Latitude && truthy form.Longitude then
    match pyFloat (form.Latitude.getD ""), pyFloat (form.Longitude.getD "") with
    | some la, some lo =>
      postAndCompose store (sessionIdOf form) (sessionDataOf store form)
        ⟨sessionIdOf form, "Here is my location.", firstNameOf store form, some (la, lo)⟩ backend
    | _, _ => ⟨.error .valueError, store, none⟩
  else if !truthy form.Body then
    ⟨.ok [emptyEventMsg], store, none⟩
  else
    detailsOrForward store (sessionIdOf form) (sessionDataOf store form)
      (firstNameOf store form) (form.Body.getD "") backend catalog

/-- The catalog record of the §8 "DETAILS Tractor" scenario. -/
def tractorRec : ProductRec :=
  ⟨some "Tractor", some "Farm tool", some (.dict [("Power", .str "50HP")]),
   some "http://x/tractor"⟩

/-- `postAndCompose` always records the payload it was given: the backend
call was made in every one of its branches. -/
theorem postAndCompose_payload (store : Store) (sid : String) (sd : SessionData)
    (pl : Payload) (backend : BackendOutcome) :
    (postAndCompose store sid sd pl backend).payload = some pl := by
  unfold postAndCompose
  split
  · rfl
  · split <;> rfl

/-- Every run of the handler either makes no backend call and leaves the
store untouched, or is exactly a `postAndCompose` on the session id and
session data read at the start of the request. -/
theorem webhook_shape (store : Store) (form : Form) (backend : BackendOutcome)
    (catalog : Option (List ProductRec)) :
    ((whatsapp_webhook store form backend catalog).payload = none ∧
      (whatsapp_webhook store form backend catalog).store = store) ∨
    (∃ pl, whatsapp_webhook store form backend catalog =
      postAndCompose store (sessionIdOf form) (sessionDataOf store form) pl backend) := by
  unfold whatsapp_webhook
  split
  · split
    · right; exact ⟨_, rfl⟩
    · left; exact ⟨rfl, rfl⟩
  · split
    · left; exact ⟨rfl, rfl⟩
    · unfold detailsOrForward
      split
      · split
        · left; exact ⟨rfl, rfl⟩
        · left; exact ⟨rfl, rfl⟩
      · right; exact ⟨_, rfl⟩

/-- The mentioned-products loop succeeds on a list in which every element
has both mandatory keys, producing one message per product in order. -/
theorem composeProductMsgs_ok (ps : List ProductJson)
    (h : ∀ p ∈ ps, p.title?.isSome ∧ p.description?.isSome) :
    composeProductMsgs ps =
      .ok (ps.map fun p => productMsg (p.title?.getD "") (p.description?.getD "")) := by
  induction ps with
  | nil => rfl
  | cons p ps ih =>
    obtain ⟨ht, hd⟩ := h p (by simp)
    obtain ⟨t, ht'⟩ := Option.isSome_iff_exists.mp ht
    obtain ⟨d, hd'⟩ := Option.isSome_iff_exists.mp hd
    rw [List.map_cons]
    simp [composeProductMsgs, ht', hd', ih (fun q hq => h q (by simp [hq]))]

/-- C2: whenever the handler makes a backend call and that call fails with
a `RequestException` (network failure or non-2xx status), the composed
reply is exactly the fixed connectivity message and the session store is
left unchanged. -/
theorem C2_gateway_failure_fixed_reply (store : Store) (form : Form)
    (catalog : Option (List ProductRec))
    (h : (whatsapp_webhook store form .reqError catalog).payload.isSome) :
    (whatsapp_webhook store form .reqError catalog).result = .ok [connectivityMsg] ∧
    (whatsapp_webhook store form .reqError catalog).store = store := by
  rcases webhook_shape store form .reqError catalog with ⟨hp, _⟩ | ⟨pl, he⟩
  · rw [hp] at h; cases h
  · rw [he]; exact ⟨rfl, rfl⟩

/-- C2 witness: a concrete free-text request against a failing backend. -/
theorem C2_witness :
    (whatsapp_webhook [] ⟨some "u", some "hi", none, none⟩ .reqError none).result =
      .ok [connectivityMsg] ∧
    (whatsapp_webhook [] ⟨some "u", some "hi", none, none⟩ .reqError none).store = [] :=
  C2_gateway_failure_fixed_reply [] ⟨some "u", some "hi", none, none⟩ none (by decide)

/-- On a successful backend call the handler stores back the session data
it read at the start of the request, unchanged. -/
theorem postAndCompose_ok_store (store : Store) (sid : String) (sd : SessionData)
    (pl : Payload) (data : BackendData) :
    (postAndCompose store sid sd pl (.ok data)).store = storeSet store sid sd := by
  cases hc : composeProductMsgs data.mentioned_products <;> simp [postAndCompose, hc]

/-- C1 counterexample: the claim says the session entry's product list is
replaced by the backend reply's mentioned products. In fact the stored
entry is identical whether the successful reply mentioned a product or
none at all, and the entry created for a fresh identity is the empty
record — the mentioned products are never written to the store. -/
theorem C1_counterexample :
    (whatsapp_webhook [] ⟨some "u", some "hi", none, none⟩
        (.ok ⟨"ok", [⟨some "P", some "D"⟩]⟩) none).store =
      (whatsapp_webhook [] ⟨some "u", some "hi", none, none⟩
        (.ok ⟨"ok", []⟩) none).store ∧
    (whatsapp_webhook [] ⟨some "u", some "hi", none, none⟩
        (.ok ⟨"ok", [⟨some "P", some "D"⟩]⟩) none).store = [("u", [])] :=
  ⟨rfl, rfl⟩

/-- C1 (amended): after every successful backend call the handler writes
`SESSION_STORE[session_id] = session_data`, i.e. it stores back exactly
the session data read at the start of the request (the empty record for a
fresh identity); the reply's mentioned-products list is not stored. -/
theorem C1_amended_store_write_back (store : Store) (form : Form) (data : BackendData)
    (catalog : Option (List ProductRec))
    (h : (whatsapp_webhook store form (.ok data) catalog).payload.isSome) :
    (whatsapp_webhook store form (.ok data) catalog).store =
      storeSet store (sessionIdOf form) (sessionDataOf store form) := by
  rcases webhook_shape store form (.ok data) catalog with ⟨hp, _⟩ | ⟨pl, he⟩
  · rw [hp] at h; cases h
  · rw [he, postAndCompose_ok_store]

/-- C1 witness: a concrete successful free-text call. -/
theorem C1_witness :
    (whatsapp_webhook [] ⟨some "u", some "hi", none, none⟩
        (.ok ⟨"ok", [⟨some "P", some "D"⟩]⟩) none).store =
      storeSet [] (sessionIdOf ⟨some "u", some "hi", none, none⟩)
        (sessionDataOf [] ⟨some "u", some "hi", none, none⟩) :=
  C1_amended_store_write_back [] ⟨some "u", some "hi", none, none⟩
    ⟨"ok", [⟨some "P", some "D"⟩]⟩ none (by decide)

/-- C3 counterexample: the claim says a body whose first token is not
exactly `DETAILS` is free text forwarded to the backend. For the body
`"DETAILSX Y"` (first token `DETAILSX`) the code instead takes the
product-detail path: no backend call is made (`payload = none`) and the
reply is a catalog lookup of `"Y"`. -/
theorem C3_counterexample :
    (whatsapp_webhook [] ⟨some "u", some "DETAILSX Y", none, none⟩
        (.ok ⟨"r", []⟩) (some [])).payload = none ∧
    (whatsapp_webhook [] ⟨some "u", some "DETAILSX Y", none, none⟩
        (.ok ⟨"r", []⟩) (some [])).result =
      .ok ["Sorry, I couldn't find details for the product 'Y'."] :=
  ⟨rfl, rfl⟩

/-- C3 (amended): for a no-location event with non-empty body, the
product-detail path is taken exactly when the stripped body, uppercased,
starts with the prefix `DETAILS` (prefix match, not first-token
equality); in that case no backend call is made, and the reply is a
catalog lookup of everything after the first space of the original body,
stripped (or the corrective prompt when the body has no space). Any other
non-empty body is forwarded to the backend verbatim as the message. -/
theorem C3_amended_details_policy (store : Store) (backend : BackendOutcome)
    (catalog : Option (List ProductRec)) (form : Form) (b : String)
    (hLat : form.Latitude = none) (hBody : form.Body = some b) (hb : b ≠ "") :
    (pyStartswith (pyUpper (pyStrip b)) "DETAILS" = true →
      (whatsapp_webhook store form backend catalog).payload = none ∧
      (whatsapp_webhook store form backend catalog).result =
        .ok [if (pySplitOnce b).length == 2
             then get_product_details catalog (pyStrip ((pySplitOnce b).getD 1 ""))
             else malformedDetailMsg]) ∧
    (pyStartswith (pyUpper (pyStrip b)) "DETAILS" = false →
      (whatsapp_webhook store form backend catalog).payload =
        some ⟨sessionIdOf form, b, firstNameOf store form, none⟩) := by
  have hw : whatsapp_webhook store form backend catalog =
      detailsOrForward store (sessionIdOf form) (sessionDataOf store form)
        (firstNameOf store form) b backend catalog := by
    unfold whatsapp_webhook
    rw [hLat, hBody]
    simp [truthy, hb]
  rw [hw]
  constructor
  · intro hk
    by_cases hlen : ((pySplitOnce b).length == 2) = true
    · simp [detailsOrForward, hk, hlen]
    · simp [detailsOrForward, hk, hlen]
  · intro hk
    simp [detailsOrForward, hk, postAndCompose_payload]

/-- C3 witness: the canonical `DETAILS Tractor` request takes the detail
path with title `Tractor` and makes no backend call. -/
theorem C3_witness :
    (whatsapp_webhook [] ⟨some "u", some "DETAILS Tractor", none, none⟩ .reqError
        (some [tractorRec])).payload = none ∧
    (whatsapp_webhook [] ⟨some "u", some "DETAILS Tractor", none, none⟩ .reqError
        (some [tractorRec])).result =
      .ok ["*Tractor*\nFarm tool\n\n*Power:* 50HP\n\nView Product: http://x/tractor"] := by
  have h := (C3_amended_details_policy [] .reqError (some [tractorRec])
    ⟨some "u", some "DETAILS Tractor", none, none⟩ "DETAILS Tractor"
    rfl rfl (by decide)).1 (by decide)
  exact ⟨h.1, h.2.trans (by rfl)⟩

/-- C4 counterexample: the claim says a detail command whose second token
is empty or whitespace (such as the body `"DETAILS "`) yields the
corrective prompt. For `"DETAILS "` the code instead performs a catalog
lookup of the empty title and replies with the not-found text, not the
prompt. -/
theorem C4_counterexample :
    (whatsapp_webhook [] ⟨some "u", some "DETAILS ", none, none⟩
        (.ok ⟨"r", []⟩) (some [])).result =
      .ok ["Sorry, I couldn't find details for the product ''."] ∧
    "Sorry, I couldn't find details for the product ''." ≠ malformedDetailMsg :=
  ⟨rfl, by decide⟩

/-- C4 (amended): the corrective prompt is emitted exactly when the
DETAILS-prefixed body contains no space at all (e.g. the bare body
`"DETAILS"`); a body that does contain a space but whose remainder strips
to the empty string instead proceeds to a catalog lookup of the empty
title. -/
theorem C4_amended_prompt_only_without_space (store : Store) (backend : BackendOutcome)
    (catalog : Option (List ProductRec)) (form : Form) (b : String)
    (hLat : form.Latitude = none) (hBody : form.Body = some b) (hb : b ≠ "")
    (hk : pyStartswith (pyUpper (pyStrip b)) "DETAILS" = true) :
    ((pySplitOnce b).length ≠ 2 →
      (whatsapp_webhook store form backend catalog).result = .ok [malformedDetailMsg]) ∧
    ((pySplitOnce b).length = 2 → pyStrip ((pySplitOnce b).getD 1 "") = "" →
      (whatsapp_webhook store form backend catalog).result =
        .ok [get_product_details catalog ""]) := by
  have hw : whatsapp_webhook store form backend catalog =
      detailsOrForward store (sessionIdOf form) (sessionDataOf store form)
        (firstNameOf store form) b backend catalog := by
    unfold whatsapp_webhook
    rw [hLat, hBody]
    simp [truthy, hb]
  rw [hw]
  constructor
  · intro hlen
    simp [detailsOrForward, hk, hlen]
  · intro hlen hstrip
    have hlen' : ((pySplitOnce b).length == 2) = true := by simp [hlen]
    simp at hstrip
    simp [detailsOrForward, hk, hlen', hstrip]

/-- C4 witness: the bare body `DETAILS` yields the corrective prompt. -/
theorem C4_witness :
    (whatsapp_webhook [] ⟨some "u", some "DETAILS", none, none⟩ .reqError none).result =
      .ok [malformedDetailMsg] :=
  (C4_amended_prompt_only_without_space [] .reqError none
    ⟨some "u", some "DETAILS", none, none⟩ "DETAILS"
    rfl rfl (by decide) (by decide)).1 (by decide)

/-- C5: the `DETAILS Tractor` scenario against the one-record catalog
composes exactly the expected detail text, character for character. -/
theorem C5_details_scenario :
    (whatsapp_webhook [] ⟨some "u", some "DETAILS Tractor", none, none⟩ .reqError
        (some [tractorRec])).result =
      .ok ["*Tractor*\nFarm tool\n\n*Power:* 50HP\n\nView Product: http://x/tractor"] :=
  rfl

/-- C6 counterexample: for an unmatched title the code's reply contains
the words "the product" before the quoted title, so it is not the claimed
text `Sorry, I couldn't find details for 'Unknown'.`. -/
theorem C6_counterexample :
    get_product_details (some [tractorRec]) "Unknown" =
      "Sorry, I couldn't find details for the product 'Unknown'." ∧
    "Sorry, I couldn't find details for the product 'Unknown'." ≠
      "Sorry, I couldn't find details for 'Unknown'." :=
  ⟨rfl, by decide⟩

/-- The product scan returns no match when every record carries a title
key and none of them matches the requested title case-insensitively. -/
theorem findProduct_none (ps : List ProductRec) (title : String)
    (h : ∀ p ∈ ps, ∃ t, p.title? = some t ∧ pyLower t ≠ pyLower title) :
    findProduct ps title = .ok none := by
  induction ps with
  | nil => rfl
  | cons p ps ih =>
    obtain ⟨t, ht, hne⟩ := h p (by simp)
    have hrest := ih (fun q hq => h q (by simp [hq]))
    simp [findProduct, ht, hne, hrest]

/-- C6 (amended): for every requested title that matches no record of a
readable catalog (all records carrying a title key), the reply is exactly
`Sorry, I couldn't find details for the product '<title>'.` with the
requested title interpolated. -/
theorem C6_amended_not_found (ps : List ProductRec) (title : String)
    (h : ∀ p ∈ ps, ∃ t, p.title? = some t ∧ pyLower t ≠ pyLower title) :
    get_product_details (some ps) title =
      "Sorry, I couldn't find details for the product '" ++ title ++ "'." := by
  rw [get_product_details, findProduct_none ps title h]

/-- C6 witness: a concrete unmatched lookup. -/
theorem C6_witness :
    get_product_details (some [tractorRec]) "Maize" =
      "Sorry, I couldn't find details for the product 'Maize'." := by
  have h := C6_amended_not_found [tractorRec] "Maize" (by
    intro p hp
    rw [List.mem_singleton] at hp
    subst hp
    exact ⟨"Tractor", rfl, by decide⟩)
  exact h

/-- C7: whenever both location form fields are present with non-empty
values that parse as decimals, the location branch is taken regardless of
the text body: the backend request carries the fixed text
`Here is my location.` (never the body) together with the parsed
latitude/longitude values. -/
theorem C7_location_priority (store : Store) (form : Form) (backend : BackendOutcome)
    (catalog : Option (List ProductRec)) (lat lon : String) (la lo : Rat)
    (hLat : form.Latitude = some lat) (hLon : form.Longitude = some lon)
    (hlat : lat ≠ "") (hlon : lon ≠ "")
    (hfla : pyFloat lat = some la) (hflo : pyFloat lon = some lo) :
    (whatsapp_webhook store form backend catalog).payload =
      some ⟨sessionIdOf form, "Here is my location.", firstNameOf store form,
            some (la, lo)⟩ := by
  unfold whatsapp_webhook
  rw [hLat, hLon]
  simp [truthy, hlat, hlon, hfla, hflo, postAndCompose_payload]

/-- C7 witness: a location event whose body would otherwise be free text. -/
theorem C7_witness :
    (whatsapp_webhook [] ⟨some "u", some "ignore this text", some "7", some "-3"⟩
        .reqError none).payload =
      some ⟨"u", "Here is my location.", "", some ((7 : Rat), (-3 : Rat))⟩ := by
  exact C7_location_priority [] ⟨some "u", some "ignore this text", some "7", some "-3"⟩
    .reqError none "7" "-3" 7 (-3) rfl rfl (by decide) (by decide) (by decide) (by decide)

/-- C8: the detail formatter is total by construction (every JSON-like
node yields a string), and every node that is not a mapping, sequence or
string — null, a number, a boolean — yields the fixed no-detail string. -/
theorem C8_formatter_total :
    (∀ d : Detail, ∃ s : String, parse_detailed_description d = s) ∧
    parse_detailed_description .null = "No detailed description available." ∧
    (∀ n : Int, parse_detailed_description (.num n) =
      "No detailed description available.") ∧
    (∀ b : Bool, parse_detailed_description (.bool b) =
      "No detailed description available.") :=
  ⟨fun d => ⟨parse_detailed_description d, rfl⟩, rfl, fun _ => rfl, fun _ => rfl⟩

/-- C9: on any successful backend reply whose mentioned products all carry
their mandatory keys, the composed outbound sequence is the lead reply
text followed by exactly one message per mentioned product, in the same
order as the reply's list (the lead text is present even when the list is
empty). -/
theorem C9_compose_shape (store : Store) (form : Form) (data : BackendData)
    (catalog : Option (List ProductRec))
    (hwf : ∀ p ∈ data.mentioned_products, p.title?.isSome ∧ p.description?.isSome)
    (hcall : (whatsapp_webhook store form (.ok data) catalog).payload.isSome) :
    (whatsapp_webhook store form (.ok data) catalog).result =
      .ok (data.reply :: data.mentioned_products.map
        (fun p => productMsg (p.title?.getD "") (p.description?.getD ""))) := by
  rcases webhook_shape store form (.ok data) catalog with ⟨hp, _⟩ | ⟨pl, he⟩
  · rw [hp] at hcall; cases hcall
  · rw [he]
    simp [postAndCompose, composeProductMsgs_ok data.mentioned_products hwf]

/-- C9 witness: a reply with two products "A" and "B" yields exactly the
lead text plus two product messages, in order — three messages. -/
theorem C9_witness :
    (whatsapp_webhook [] ⟨some "u", some "hello", none, none⟩
        (.ok ⟨"lead", [⟨some "A", some "da"⟩, ⟨some "B", some "db"⟩]⟩) none).result =
      .ok ["lead", productMsg "A" "da", productMsg "B" "db"] := by
  exact C9_compose_shape [] ⟨some "u", some "hello", none, none⟩
    ⟨"lead", [⟨some "A", some "da"⟩, ⟨some "B", some "db"⟩]⟩ none
    (by decide) (by decide)

/-- C10: a successful backend reply containing a mentioned product without
a `"title"` key makes the handler raise an uncaught `KeyError` (only
`RequestException` is caught around the backend call): the request fails
with no outbound reply at all, even though the backend call itself was
made and the lead text had been queued. -/
theorem C10_uncaught_keyerror :
    (whatsapp_webhook [] ⟨some "u", some "hello", none, none⟩
        (.ok ⟨"hi", [⟨none, some "d"⟩]⟩) none).result = .error .keyError ∧
    (whatsapp_webhook [] ⟨some "u", some "hello", none, none⟩
        (.ok ⟨"hi", [⟨none, some "d"⟩]⟩) none).payload.isSome = true :=
  ⟨rfl, rfl⟩

end WhatsappBot
